import Mathlib

/-!
Shallow embedding of `src/translate_po.py`.

The script loads a .po catalog (a list of entries), filters the entries that
are candidates for translation, calls an external translation service once per
candidate (with a 0.5 s sleep before each call), mutates candidate entries in
place on success, and saves the file iff at least one entry was translated.
The whole body is wrapped in `try/except` that prints on `FileNotFoundError`
and on any other exception.

The catalog is modelled as `List POEntry` (polib's `POFile` is a list of
entries; each Python entry is a distinct object, so positional identity is
faithful).  The external translator is modelled as an oracle
`tr : Nat → String → TransResult` giving, for the i-th translation call of the
run and the text sent, either a translation object with some text, a falsy
result, or a raised exception.  `time.sleep` and the translation calls are
recorded in an event trace.  Python's `str.lower()` is modelled on the ASCII
range by `Char.toLower`.
-/

namespace TranslatePo

/-- A .po catalog entry as used by the script: `msgid` (source text),
`msgstr` (translation, possibly empty), `flags` (e.g. "fuzzy") and
`occurrences` (pairs of source file name and line number string),
mirroring polib's `POEntry` fields that `translate_po.py` touches. -/
structure POEntry where
  msgid : String
  msgstr : String
  flags : List String
  occurrences : List (String × String)
deriving DecidableEq, Repr

/-- Result of one `translator.translate(...)` call: `ok text` is a translation
object whose `.text` is `text`; `falsy` is a falsy translation object
(`if translation` fails); `exn msg` is a raised exception. -/
inductive TransResult where
  | ok (text : String)
  | falsy
  | exn (msg : String)
deriving DecidableEq, Repr

/-- `listContains needle hay`: `needle` occurs as a contiguous sublist of
`hay` (Python's `in` on strings, over explicit character lists). -/
def listContains (needle : List Char) : List Char → Bool
  | [] => needle.isEmpty
  | c :: rest => needle.isPrefixOf (c :: rest) || listContains needle rest

/-- `s.lower()` of Python, modelled on the ASCII range. -/
def lowerStr (s : String) : List Char := s.data.map Char.toLower

/-- The characters of the literal `'report'` from line 38 of the script. -/
def reportChars : List Char := ['r', 'e', 'p', 'o', 'r', 't']

/-- Line 36-41: the entry has some occurrence whose FILE NAME component
satisfies `'report' in filename.lower()`.  (The line-number component of an
occurrence is never examined by the code.) -/
def isReportEntry (e : POEntry) : Bool :=
  e.occurrences.any (fun occ => listContains reportChars (lowerStr occ.1))

/-- The spec's wording of claim C1, for comparison with `isReportEntry`:
"some occurrence pair contains the substring 'report', case-insensitively",
i.e. either component of some occurrence contains it. -/
def specMentionsReport (e : POEntry) : Bool :=
  e.occurrences.any (fun occ =>
    listContains reportChars (lowerStr occ.1) || listContains reportChars (lowerStr occ.2))

/-- Line 29: membership test of the pre-filter
`[entry for entry in po if not entry.msgstr and entry.msgid]`. -/
def isPotentiallyTranslatable (e : POEntry) : Bool :=
  e.msgstr == "" && e.msgid != ""

/-- Lines 33-51: the entry is skipped by the second filter loop, because of a
'report' occurrence or a 'fuzzy' flag. -/
def skip_entry (e : POEntry) : Bool :=
  isReportEntry e || e.flags.contains "fuzzy"

/-- The entry reaches `entries_to_translate`: it passes the pre-filter of line
29 and is not skipped by lines 33-51. -/
def selected (e : POEntry) : Bool :=
  isPotentiallyTranslatable e && !(skip_entry e)

/-- The list `entries_to_translate` built by lines 26-54, in catalog order. -/
def entries_to_translate (po : List POEntry) : List POEntry :=
  (po.filter isPotentiallyTranslatable).filter (fun e => !(skip_entry e))

/-- Number of selected entries in a list (used to compute the translation-call
index of a catalog position). -/
def selCount (l : List POEntry) : Nat := l.countP (fun e => selected e)

/-- Lines 64-77 for one entry: given the result of the translation call,
the updated entry and whether `translated_count` was incremented.
On `ok t` with nonempty `t`, `msgstr` is set to `t` and a 'fuzzy' flag, if
present, is removed (Python's `list.remove` drops the first occurrence);
an empty text, a falsy result or an exception leave the entry unchanged. -/
def applyTranslation (r : TransResult) (e : POEntry) : POEntry × Bool :=
  match r with
  | TransResult.ok t =>
      if t == "" then (e, false)
      else
        ({ e with
            msgstr := t,
            flags := if e.flags.contains "fuzzy" then e.flags.erase "fuzzy" else e.flags },
          true)
  | TransResult.falsy => (e, false)
  | TransResult.exn _ => (e, false)

/-- Lines 58-77 acting on the whole catalog: each selected entry, in order, is
given the next translation-call index `i` and updated in place according to
the oracle; non-selected entries are untouched.  Returns the final catalog and
`translated_count`. -/
def runEntries (tr : Nat → String → TransResult) :
    List POEntry → Nat → List POEntry × Nat
  | [], _ => ([], 0)
  | e :: rest, i =>
    if selected e then
      let p := applyTranslation (tr i e.msgid) e
      let q := runEntries tr rest (i + 1)
      (p.1 :: q.1, (if p.2 then 1 else 0) + q.2)
    else
      let q := runEntries tr rest i
      (e :: q.1, q.2)

/-- Observable events of the translation loop: `time.sleep(0.5)` (recorded in
milliseconds), the translation call for entry index `idx` with the text sent,
and the error print of the per-entry `except` handler. -/
inductive Event where
  | sleepMs (ms : Nat)
  | call (idx : Nat) (text : String)
  | errorLogged (idx : Nat) (msg : String)
deriving DecidableEq, Repr

/-- Lines 61-77 for one entry: sleep 0.5 s, then the translation call; when
the call raises, the exception is caught and logged. -/
def entryEvents (tr : Nat → String → TransResult) (i : Nat) (e : POEntry) : List Event :=
  [Event.sleepMs 500, Event.call i e.msgid] ++
    (match tr i e.msgid with
      | TransResult.exn m => [Event.errorLogged i m]
      | _ => [])

/-- The event trace of the loop of lines 58-77 over the catalog. -/
def runTrace (tr : Nat → String → TransResult) :
    List POEntry → Nat → List Event
  | [], _ => []
  | e :: rest, i =>
    if selected e then entryEvents tr i e ++ runTrace tr rest (i + 1)
    else runTrace tr rest i

/-- Everything `translate_po_file` does after a successful `polib.pofile`:
final in-memory catalog, `translated_count`, whether `po.save()` ran
(line 79: iff `translated_count > 0`), the resulting file contents, and the
event trace of the translation loop. -/
structure RunOutput where
  catalog : List POEntry
  translated_count : Nat
  saved : Bool
  disk : List POEntry
  trace : List Event
deriving Repr

/-- Lines 17-90: process a loaded catalog.  `disk` is the catalog written back
when `save` ran, and the original file contents otherwise. -/
def processPo (tr : Nat → String → TransResult) (po : List POEntry) : RunOutput :=
  let p := runEntries tr po 0
  { catalog := p.1
    translated_count := p.2
    saved := decide (0 < p.2)
    disk := if 0 < p.2 then p.1 else po
    trace := runTrace tr po 0 }

/-- Exceptions reaching the outer `try` of `translate_po_file`:
`FileNotFoundError` or any other `Exception`. -/
inductive PyExc where
  | fileNotFound
  | other (msg : String)
deriving DecidableEq, Repr

/-- What `translate_po_file` does overall: it either completes the run, or
prints the line-93 "File not found" message, or prints the line-95
"unexpected error" message.  It never lets an exception escape. -/
inductive Outcome where
  | completed (out : RunOutput)
  | printedFileNotFound
  | printedError (msg : String)
deriving Repr

/-- Lines 16-95: the body of `translate_po_file` guarded by the outer
`try/except`.  `load` is the outcome of `polib.pofile(filepath)` (a catalog,
or a raised exception). -/
def translate_po_file (load : Except PyExc (List POEntry))
    (tr : Nat → String → TransResult) : Outcome :=
  match load with
  | Except.ok po => Outcome.completed (processPo tr po)
  | Except.error PyExc.fileNotFound => Outcome.printedFileNotFound
  | Except.error (PyExc.other m) => Outcome.printedError m

/-- The hard-coded default path of line 106. -/
def defaultFilepath : String := "/opt/odoo18/projects/bb/bbb/i18n/ar_001.po"

/-- Lines 97-107: the CLI's one optional positional argument (`nargs` is
optional, default `None`), resolved to the path actually used. -/
def resolveFilepath (arg : Option String) : String :=
  match arg with
  | none => defaultFilepath
  | some p => p

/-- Lines 97-109: the `__main__` block.  `fs` maps a path to the outcome of
opening it (the filesystem).  Returns the path passed to `translate_po_file`
and the outcome of the call. -/
def mainRun (arg : Option String) (fs : String → Except PyExc (List POEntry))
    (tr : Nat → String → TransResult) : String × Outcome :=
  let fp := resolveFilepath arg
  (fp, translate_po_file (fs fp) tr)

/-- Extracts translation-call events from a trace. -/
def callOf : Event → Option (Nat × String)
  | Event.call i t => some (i, t)
  | _ => none

/-- Every `call` event in the list is immediately preceded by a
`sleepMs 500` event. -/
def sleepBeforeEveryCall : List Event → Bool
  | [] => true
  | Event.sleepMs ms :: Event.call _ _ :: rest => (ms == 500) && sleepBeforeEveryCall rest
  | Event.call _ _ :: _ => false
  | _ :: rest => sleepBeforeEveryCall rest

/-! Concrete fixtures used by the witness theorems below. -/

/-- An oracle whose every call succeeds with text `"AR:" ++ input`. -/
def wTr : Nat → String → TransResult := fun _ s => TransResult.ok ("AR:" ++ s)

/-- An oracle whose every call returns a falsy translation object. -/
def wTrF : Nat → String → TransResult := fun _ _ => TransResult.falsy

/-- An oracle whose every call raises an exception. -/
def wTrE : Nat → String → TransResult := fun _ _ => TransResult.exn "boom"

/-- An entry that is already translated (nonempty `msgstr`). -/
def wDone : POEntry := ⟨"Hello", "X", ["fuzzy"], [("a.py", "1")]⟩

/-- An untranslated entry carrying the 'fuzzy' flag. -/
def wFuzzy : POEntry := ⟨"World", "", ["fuzzy"], []⟩

/-- An untranslated entry whose occurrence file name contains 'report'. -/
def wReport : POEntry := ⟨"Total", "", [], [("addons/report_x.py", "10")]⟩

/-- An entry with an empty `msgid`. -/
def wEmptyId : POEntry := ⟨"", "", [], []⟩

/-- A plain untranslated entry that the script will translate. -/
def wPlain : POEntry := ⟨"Sale Order", "", [], [("sale.py", "5")]⟩

/-- A five-entry catalog exercising every filter branch. -/
def wPo : List POEntry := [wDone, wFuzzy, wReport, wEmptyId, wPlain]

/-- An untranslated entry whose occurrence mentions 'report' only in the
line-number component of the pair, not in the file name. -/
def cexEntry : POEntry := ⟨"Hello", "", [], [("addons/sale/models/sale.py", "report")]⟩

/-! Characterization lemmas. -/

/-- Position `j` of the final catalog: a non-selected entry is untouched; a
selected entry is updated by the oracle's answer at its translation-call
index `i + selCount (po.take j)`. -/
theorem runEntries_fst_getElem (tr : Nat → String → TransResult) :
    ∀ (po : List POEntry) (i j : Nat),
    ((runEntries tr po i).1)[j]? =
      (po[j]?).map (fun e =>
        if selected e then (applyTranslation (tr (i + selCount (po.take j)) e.msgid) e).1
        else e) := by
  intro po
  induction po with
  | nil => intro i j; simp [runEntries]
  | cons e rest ih =>
    intro i j
    by_cases hs : selected e
    · cases j with
      | zero => simp [runEntries, hs, selCount]
      | succ j =>
        simp [runEntries, hs, ih, List.take_succ_cons, selCount, List.countP_cons,
          Nat.add_assoc, Nat.add_comm, Nat.add_left_comm]
    · cases j with
      | zero => simp [runEntries, hs, selCount]
      | succ j =>
        simp [runEntries, hs, ih, List.take_succ_cons, selCount, List.countP_cons]

/-- `entries_to_translate` keeps exactly the `selected` entries, in order. -/
theorem entries_to_translate_cons (e : POEntry) (rest : List POEntry) :
    entries_to_translate (e :: rest) =
      if selected e then e :: entries_to_translate rest else entries_to_translate rest := by
  by_cases h1 : isPotentiallyTranslatable e
  · by_cases h2 : skip_entry e <;>
      simp [entries_to_translate, selected, h1, h2, List.filter_cons]
  · simp [entries_to_translate, selected, h1, List.filter_cons]

/-- The translation-call events of the trace are exactly the entries of
`entries_to_translate`, numbered from `i`, in order. -/
theorem runTrace_calls (tr : Nat → String → TransResult) :
    ∀ (po : List POEntry) (i : Nat),
    (runTrace tr po i).filterMap callOf =
      (List.enumFrom i (entries_to_translate po)).map (fun p => (p.1, p.2.msgid)) := by
  intro po
  induction po with
  | nil => intro i; simp [runTrace, entries_to_translate]
  | cons e rest ih =>
    intro i
    by_cases hs : selected e
    · cases htr : tr i e.msgid <;>
        simp [runTrace, hs, entryEvents, htr, List.filterMap_append, callOf, ih,
          entries_to_translate_cons, List.enumFrom_cons]
    · simp [runTrace, hs, ih, entries_to_translate_cons]

/-- Every translation call in the trace is immediately preceded by the
0.5-second sleep of line 63. -/
theorem runTrace_sleepBefore (tr : Nat → String → TransResult) :
    ∀ (po : List POEntry) (i : Nat),
    sleepBeforeEveryCall (runTrace tr po i) = true := by
  intro po
  induction po with
  | nil => intro i; simp [runTrace, sleepBeforeEveryCall]
  | cons e rest ih =>
    intro i
    by_cases hs : selected e
    · cases htr : tr i e.msgid <;>
        simp [runTrace, hs, entryEvents, htr, sleepBeforeEveryCall, ih]
    · simp [runTrace, hs, ih]

/-- A selected entry has a nonempty `msgid` (line 29 of the script). -/
theorem selected_msgid_ne (e : POEntry) (hs : selected e = true) : e.msgid ≠ "" := by
  simp [selected, isPotentiallyTranslatable] at hs
  exact hs.1.2

/-- A selected entry does not carry the 'fuzzy' flag (line 48). -/
theorem selected_not_fuzzy (e : POEntry) (hs : selected e = true) :
    e.flags.contains "fuzzy" = false := by
  simp [selected, skip_entry] at hs
  simpa using hs.2.2

/-- No translation call ever sends an empty text. -/
theorem runTrace_no_empty_call (tr : Nat → String → TransResult) :
    ∀ (po : List POEntry) (i k : Nat), Event.call k "" ∉ runTrace tr po i := by
  intro po
  induction po with
  | nil => intro i k; simp [runTrace]
  | cons e rest ih =>
    intro i k
    by_cases hs : selected e
    · have hmsg := selected_msgid_ne e hs
      cases htr : tr i e.msgid <;>
        simp [runTrace, hs, entryEvents, htr, ih] <;>
        exact fun _ h => hmsg h.symm
    · simp [runTrace, hs, ih]

/-- When the oracle raises at a selected entry, the per-entry handler's error
print appears in the trace. -/
theorem runTrace_mem_errorLogged (tr : Nat → String → TransResult) :
    ∀ (po : List POEntry) (i j : Nat) (e : POEntry) (m : String),
    po[j]? = some e → selected e = true →
    tr (i + selCount (po.take j)) e.msgid = TransResult.exn m →
    Event.errorLogged (i + selCount (po.take j)) m ∈ runTrace tr po i := by
  intro po
  induction po with
  | nil => intro i j e m h; simp at h
  | cons e0 rest ih =>
    intro i j e m hj hs htr
    by_cases hs0 : selected e0
    · cases j with
      | zero =>
        simp [selCount] at hj htr ⊢
        subst hj
        simp [runTrace, hs0, entryEvents, htr]
      | succ j =>
        simp [List.take_succ_cons, selCount, List.countP_cons, hs0] at hj htr ⊢
        have := ih (i + 1) j e m hj hs (by
          rw [show i + 1 + selCount (rest.take j) = i + (selCount (rest.take j) + 1) by omega]
          exact htr)
        simp [runTrace, hs0, List.mem_append]
        right
        rw [show i + (List.countP (fun e => selected e) (List.take j rest) + 1)
            = i + 1 + selCount (rest.take j) by simp [selCount]; omega]
        exact this
    · cases j with
      | zero => simp at hj; subst hj; simp [hs0] at hs
      | succ j =>
        simp [List.take_succ_cons, selCount, List.countP_cons, hs0] at hj htr ⊢
        have := ih i j e m hj hs (by simpa [selCount] using htr)
        simp [runTrace, hs0]
        simpa [selCount] using this

/-- An entry that the filters reject is returned unchanged at its position. -/
theorem selected_false_unchanged (tr : Nat → String → TransResult)
    (po : List POEntry) (j : Nat) (e : POEntry)
    (hj : po[j]? = some e) (hs : selected e = false) :
    (processPo tr po).catalog[j]? = some e := by
  have h := runEntries_fst_getElem tr po 0 j
  simp [processPo]
  rw [h]
  simp [hj, hs]

/-! Claim theorems. -/

/-- Claim C1 (counterexample): an entry can satisfy the claim's predicate
"some occurrence pair contains the substring 'report'" — here only through
the line-number component of the pair — and still be translated, its `msgstr`
changing from empty to the translation.  The code (line 38) inspects only the
file-name component of each occurrence. -/
theorem C1_pair_mentions_report_but_translated :
    specMentionsReport cexEntry = true ∧
    ((processPo wTr [cexEntry]).catalog[0]?).map POEntry.msgstr = some "AR:Hello" ∧
    cexEntry.msgstr = "" := by decide

/-- Claim C1 (amended): every catalog entry some occurrence of which has its
FILE-NAME component containing 'report' case-insensitively is never modified
by `translate_po_file`: the entry at its position is unchanged, so its
`msgstr` and `flags` are the same after the run as before. -/
theorem C1_report_filename_unchanged (tr : Nat → String → TransResult)
    (po : List POEntry) (j : Nat) (e : POEntry)
    (hj : po[j]? = some e) (hr : isReportEntry e = true) :
    (processPo tr po).catalog[j]? = some e := by
  apply selected_false_unchanged tr po j e hj
  simp [selected, skip_entry, hr]

/-- Witness for `C1_report_filename_unchanged` on the concrete catalog. -/
theorem C1_report_filename_unchanged_witness :
    (processPo wTr wPo).catalog[2]? = some wReport :=
  C1_report_filename_unchanged wTr wPo 2 wReport rfl (by decide)

/-- Claim C2: an entry successfully translated by `translate_po_file` (the
call returned a non-empty text and `msgstr` was set to it) does not carry the
'fuzzy' flag after the run. -/
theorem C2_translated_entry_not_fuzzy (tr : Nat → String → TransResult)
    (po : List POEntry) (j : Nat) (e : POEntry) (t : String)
    (hj : po[j]? = some e) (hs : selected e = true)
    (htr : tr (selCount (po.take j)) e.msgid = TransResult.ok t) (hne : t ≠ "") :
    ∃ e2, (processPo tr po).catalog[j]? = some e2 ∧ e2.msgstr = t ∧
      e2.flags.contains "fuzzy" = false := by
  have hfz := selected_not_fuzzy e hs
  have hm : "fuzzy" ∉ e.flags := by simpa using hfz
  refine ⟨{ e with msgstr := t }, ?_, rfl, hfz⟩
  have h := runEntries_fst_getElem tr po 0 j
  simp [processPo]
  rw [h]
  simp [hj, hs, htr, applyTranslation, hne, hfz, hm]

/-- Witness for `C2_translated_entry_not_fuzzy` on the concrete catalog. -/
theorem C2_translated_entry_not_fuzzy_witness :
    ∃ e2, (processPo wTr wPo).catalog[4]? = some e2 ∧ e2.msgstr = "AR:Sale Order" ∧
      e2.flags.contains "fuzzy" = false :=
  C2_translated_entry_not_fuzzy wTr wPo 4 wPlain "AR:Sale Order" rfl (by decide)
    (by decide) (by decide)

/-- Claim C3: a catalog entry whose `msgstr` is non-empty before the run is
never modified: the entry at its position — hence its `msgstr`, `flags` and
`occurrences` — is unchanged after the run. -/
theorem C3_nonempty_msgstr_unchanged (tr : Nat → String → TransResult)
    (po : List POEntry) (j : Nat) (e : POEntry)
    (hj : po[j]? = some e) (hne : e.msgstr ≠ "") :
    (processPo tr po).catalog[j]? = some e := by
  apply selected_false_unchanged tr po j e hj
  simp [selected, isPotentiallyTranslatable, hne]

/-- Witness for `C3_nonempty_msgstr_unchanged` on the concrete catalog. -/
theorem C3_nonempty_msgstr_unchanged_witness :
    (processPo wTr wPo).catalog[0]? = some wDone :=
  C3_nonempty_msgstr_unchanged wTr wPo 0 wDone rfl (by decide)

/-- Claim C4: a catalog entry whose `flags` contain 'fuzzy' before the run is
never modified: the entry at its position — hence its `msgstr` and `flags` —
is unchanged after the run. -/
theorem C4_fuzzy_entry_unchanged (tr : Nat → String → TransResult)
    (po : List POEntry) (j : Nat) (e : POEntry)
    (hj : po[j]? = some e) (hfz : e.flags.contains "fuzzy" = true) :
    (processPo tr po).catalog[j]? = some e := by
  apply selected_false_unchanged tr po j e hj
  have hm : "fuzzy" ∈ e.flags := by simpa using hfz
  simp [selected, skip_entry, hm]

/-- Witness for `C4_fuzzy_entry_unchanged` on the concrete catalog. -/
theorem C4_fuzzy_entry_unchanged_witness :
    (processPo wTr wPo).catalog[1]? = some wFuzzy :=
  C4_fuzzy_entry_unchanged wTr wPo 1 wFuzzy rfl (by decide)

/-- Claim C5: when the translation call for a selected entry raises, the
error is logged (the handler's print appears in the trace), the entry is left
unchanged at its position, and every other entry of the catalog — including
all later ones — is still processed according to its own oracle answer. -/
theorem C5_exn_logged_skipped_continue (tr : Nat → String → TransResult)
    (po : List POEntry) (j : Nat) (e : POEntry) (m : String)
    (hj : po[j]? = some e) (hs : selected e = true)
    (htr : tr (selCount (po.take j)) e.msgid = TransResult.exn m) :
    (processPo tr po).catalog[j]? = some e ∧
    Event.errorLogged (selCount (po.take j)) m ∈ (processPo tr po).trace ∧
    ∀ (j2 : Nat) (e2 : POEntry), po[j2]? = some e2 →
      (processPo tr po).catalog[j2]? = some
        (if selected e2 then
          (applyTranslation (tr (selCount (po.take j2)) e2.msgid) e2).1
        else e2) := by
  refine ⟨?_, ?_, ?_⟩
  · have h := runEntries_fst_getElem tr po 0 j
    simp [processPo]
    rw [h]
    simp [hj, hs, htr, applyTranslation]
  · have h := runTrace_mem_errorLogged tr po 0 j e m hj hs (by simpa using htr)
    simpa [processPo] using h
  · intro j2 e2 hj2
    have h := runEntries_fst_getElem tr po 0 j2
    simp [processPo]
    rw [h]
    simp [hj2]

/-- Witness for `C5_exn_logged_skipped_continue` on a one-entry catalog with
an always-raising oracle. -/
theorem C5_exn_logged_skipped_continue_witness :
    (processPo wTrE [wPlain]).catalog[0]? = some wPlain ∧
    Event.errorLogged (selCount (List.take 0 [wPlain])) "boom" ∈ (processPo wTrE [wPlain]).trace ∧
    ∀ (j2 : Nat) (e2 : POEntry), [wPlain][j2]? = some e2 →
      (processPo wTrE [wPlain]).catalog[j2]? = some
        (if selected e2 then
          (applyTranslation (wTrE (selCount (List.take j2 [wPlain])) e2.msgid) e2).1
        else e2) :=
  C5_exn_logged_skipped_continue wTrE [wPlain] 0 wPlain "boom" rfl (by decide) (by decide)

/-- Claim C6: a missing file makes `translate_po_file` print the
file-not-found message, any other exception makes it print the generic error
message, and for every possible load outcome the call returns one of the three
`Outcome`s — no exception propagates to the caller. -/
theorem C6_exceptions_caught (tr : Nat → String → TransResult) (m : String) :
    translate_po_file (Except.error PyExc.fileNotFound) tr = Outcome.printedFileNotFound ∧
    translate_po_file (Except.error (PyExc.other m)) tr = Outcome.printedError m ∧
    ∀ load : Except PyExc (List POEntry),
      (∃ po2, load = Except.ok po2 ∧
        translate_po_file load tr = Outcome.completed (processPo tr po2)) ∨
      translate_po_file load tr = Outcome.printedFileNotFound ∨
      ∃ m2, translate_po_file load tr = Outcome.printedError m2 := by
  refine ⟨rfl, rfl, ?_⟩
  intro load
  match load with
  | Except.ok po2 => exact Or.inl ⟨po2, rfl, rfl⟩
  | Except.error PyExc.fileNotFound => exact Or.inr (Or.inl rfl)
  | Except.error (PyExc.other m2) => exact Or.inr (Or.inr ⟨m2, rfl⟩)

/-- Claim C7: with no positional argument the program runs
`translate_po_file` on the hard-coded default path, with one it runs it on
the given path; in both cases the outcome is that of `translate_po_file` on
the resolved path's load result. -/
theorem C7_cli_filepath (fs : String → Except PyExc (List POEntry))
    (tr : Nat → String → TransResult) (p : String) :
    (mainRun none fs tr).1 = "/opt/odoo18/projects/bb/bbb/i18n/ar_001.po" ∧
    (mainRun (some p) fs tr).1 = p ∧
    ∀ arg : Option String,
      (mainRun arg fs tr).2 = translate_po_file (fs (mainRun arg fs tr).1) tr :=
  ⟨rfl, rfl, fun _ => rfl⟩

/-- Claim C8: the translation calls of the trace are exactly the entries of
the filtered list, in original order, numbered 0, 1, 2, ...; and every call
is immediately preceded by the fixed 0.5-second (500 ms) sleep, so no two
calls happen without a delay between them. -/
theorem C8_sequential_with_delay (tr : Nat → String → TransResult) (po : List POEntry) :
    (processPo tr po).trace.filterMap callOf =
      (List.enumFrom 0 (entries_to_translate po)).map (fun p => (p.1, p.2.msgid)) ∧
    sleepBeforeEveryCall (processPo tr po).trace = true := by
  constructor
  · simpa [processPo] using runTrace_calls tr po 0
  · simpa [processPo] using runTrace_sleepBefore tr po 0

/-- Claim C9: a catalog entry with an empty `msgid` is never modified, and no
translation call of the run ever sends an empty text, so the entry is never
submitted for translation even when its `msgstr` is also empty. -/
theorem C9_empty_msgid_untouched (tr : Nat → String → TransResult)
    (po : List POEntry) (j : Nat) (e : POEntry)
    (hj : po[j]? = some e) (hid : e.msgid = "") :
    (processPo tr po).catalog[j]? = some e ∧
    ∀ k : Nat, Event.call k "" ∉ (processPo tr po).trace := by
  constructor
  · apply selected_false_unchanged tr po j e hj
    simp [selected, isPotentiallyTranslatable, hid]
  · intro k
    simpa [processPo] using runTrace_no_empty_call tr po 0 k

/-- Witness for `C9_empty_msgid_untouched` on the concrete catalog. -/
theorem C9_empty_msgid_untouched_witness :
    (processPo wTr wPo).catalog[3]? = some wEmptyId ∧
    ∀ k : Nat, Event.call k "" ∉ (processPo wTr wPo).trace :=
  C9_empty_msgid_untouched wTr wPo 3 wEmptyId rfl rfl

/-- Claim C10: when no entry was translated (`translated_count = 0`), `save`
is not called and the file contents are unchanged; when at least one entry was
translated, `save` runs and the file holds the updated catalog. -/
theorem C10_save_iff_translated (tr : Nat → String → TransResult) (po : List POEntry) :
    ((processPo tr po).translated_count = 0 →
      (processPo tr po).saved = false ∧ (processPo tr po).disk = po) ∧
    (0 < (processPo tr po).translated_count →
      (processPo tr po).saved = true ∧ (processPo tr po).disk = (processPo tr po).catalog) := by
  constructor
  · intro h
    simp [processPo] at h ⊢
    simp [h]
  · intro h
    simp [processPo] at h ⊢
    simp [h, Nat.pos_iff_ne_zero.mp h]

/-- Witness for `C10_save_iff_translated`: the all-falsy oracle translates
nothing and leaves the file alone; the succeeding oracle saves the updated
catalog. -/
theorem C10_save_iff_translated_witness :
    ((processPo wTrF wPo).saved = false ∧ (processPo wTrF wPo).disk = wPo) ∧
    ((processPo wTr wPo).saved = true ∧ (processPo wTr wPo).disk = (processPo wTr wPo).catalog) :=
  ⟨(C10_save_iff_translated wTrF wPo).1 (by decide),
   (C10_save_iff_translated wTr wPo).2 (by decide)⟩

end TranslatePo
